import Mathlib

/-!
Verification of the ticket-selling backend (`ticket_selling` repository).

The development shallowly embeds the two purchase pipelines of the system:

* the **fast path** (`src/controller/ticket.controller.js`): an in-memory
  seat cache and idempotency cache, with an optimistic check-then-increment
  purchase step (`attemptPurchase`), deferred persistence and compensating
  rollback;
* the **CRUD path** (`src/services/purchase.service.js` together with the
  event/purchase model helpers): a transactional check-then-increment over
  the persisted rows;

plus the error middleware (`src/middlwares/errors.js`), the request
validation layer and the metrics collector (both in files bundled with
`src/config/logger.js`), and the purchase statistics query.

JavaScript numbers holding seat counts are modelled as `Int` (they are
integers in every observed state; quantities arriving through the validated
fast path are `Nat`).  Maps keyed by idempotency key are modelled as
association lists with unique keys (`Map.get` = first match, `Map.delete` =
erase all matches; the two agree because keys are only inserted when
absent).
-/

namespace TicketSelling

/-! ### Association-list operations mirroring the JS `Map` usage -/

/-- `Map.get k` / `Map.has k`: first entry with key `k`. -/
def alookup {α : Type} (k : String) : List (String × α) → Option α
  | [] => none
  | (k', v) :: rest => if k' = k then some v else alookup k rest

/-- `Map.delete k`: remove the entry with key `k`. -/
def aerase {α : Type} (k : String) : List (String × α) → List (String × α)
  | [] => []
  | (k', v) :: rest => if k' = k then aerase k rest else (k', v) :: aerase k rest

/-! ### Fast-path data model (`ticket.controller.js`) -/

/-- The in-memory seat cache (`seatCache`); `eventId`/`lastUpdated` are
dropped as no verified claim mentions them. -/
structure SeatCache where
  totalSeats : Int
  seatsSold : Int
  deriving DecidableEq, Repr

/-- A purchase response as built by `attemptPurchase`: either the sold-out
response `{error:'SOLD_OUT', statusCode:409, seatsRemaining}` or the success
response `{success:true, seatsRemaining, statusCode:200}`. -/
inductive Resp where
  | soldOut (seatsRemaining : Int)
  | success (seatsRemaining : Int)
  deriving DecidableEq, Repr

/-- The `statusCode` field of a response object. -/
def Resp.statusCodeOf : Resp → Nat
  | .soldOut _ => 409
  | .success _ => 200

/-- The `error` field of a response object (absent on success). -/
def Resp.errorField : Resp → Option String
  | .soldOut _ => some "SOLD_OUT"
  | .success _ => none

/-- The `seatsRemaining` field of a response object. -/
def Resp.seatsRemainingOf : Resp → Int
  | .soldOut r => r
  | .success r => r

/-- Process-wide fast-path state: the seat cache, the idempotency cache, and
the multiset of optimistic reservations whose deferred persistence
transaction has not yet resolved (each holding the key and quantity captured
by the `setImmediate` closure). -/
structure FastState where
  cache : SeatCache
  idem : List (String × Resp)
  pending : List (String × Nat)
  deriving DecidableEq, Repr

/-- Fast-path state at startup for an event with `totalSeats = n`,
`seatsSold = 0` and empty caches. -/
def initState (n : Nat) : FastState :=
  { cache := { totalSeats := (n : Int), seatsSold := 0 }, idem := [], pending := [] }

/-- `attemptPurchase(idempotencyKey, quantity)`: returns the response
object, the `isIdempotent` marker, and the updated state.  A fresh success
appends the reservation to `pending` (the scheduled deferred persistence). -/
def attemptPurchase (st : FastState) (k : String) (q : Nat) :
    (Resp × Bool) × FastState :=
  match alookup k st.idem with
  | some cached => ((cached, true), st)
  | none =>
    let seatsRemaining := st.cache.totalSeats - st.cache.seatsSold
    if (q : Int) > seatsRemaining then
      let r := Resp.soldOut seatsRemaining
      ((r, false), { st with idem := (k, r) :: st.idem })
    else
      let sold := st.cache.seatsSold + (q : Int)
      let r := Resp.success (st.cache.totalSeats - sold)
      ((r, false),
        { cache := { st.cache with seatsSold := sold },
          idem := (k, r) :: st.idem,
          pending := (k, q) :: st.pending })

/-- Resolution of the deferred `$transaction` for the reservation under key
`k` when the database write succeeds: the reservation is no longer in
flight; caches are untouched. -/
def persistOk (st : FastState) (k : String) : FastState :=
  match alookup k st.pending with
  | some _ => { st with pending := aerase k st.pending }
  | none => st

/-- Resolution of the deferred `$transaction` when the write fails: the
compensating rollback `seatCache.seatsSold -= quantity;
idempotencyCache.delete(idempotencyKey)`. -/
def persistFail (st : FastState) (k : String) : FastState :=
  match alookup k st.pending with
  | some q =>
      { cache := { st.cache with seatsSold := st.cache.seatsSold - (q : Int) },
        idem := aerase k st.idem,
        pending := aerase k st.pending }
  | none => st

/-- One fast-path event: a purchase attempt, the resolution of a deferred
persistence transaction (success or failure), or the failure of the
background write recording a rejected attempt (its `catch` block ignores
the error, touching no state). -/
inductive FastOp where
  | attempt (k : String) (q : Nat)
  | persistSucceed (k : String)
  | persistFailed (k : String)
  | soldOutWriteFailed (k : String)
  deriving DecidableEq, Repr

/-- Effect of one fast-path event on the process state. -/
def step (st : FastState) : FastOp → FastState
  | .attempt k q => (attemptPurchase st k q).2
  | .persistSucceed k => persistOk st k
  | .persistFailed k => persistFail st k
  | .soldOutWriteFailed _ => st

/-- Run a sequence of fast-path events. -/
def run (st : FastState) : List FastOp → FastState
  | [] => st
  | op :: ops => run (step st op) ops

/-! ### The seat-cache invariant and its preservation -/

/-- Total quantity of reservations whose deferred persistence is still in
flight. -/
def pendingSum (st : FastState) : Nat :=
  (st.pending.map Prod.snd).sum

/-- Does an idempotency-cache lookup hold a success response? -/
def isSuccessEntry (o : Option Resp) : Bool :=
  match o with
  | some (Resp.success _) => true
  | _ => false

/-- Every in-flight reservation has its (success) response still cached
under its key.  This holds in the code because the success response is
cached in the same synchronous segment that schedules the persistence, and
only the rollback of that very reservation deletes the entry. -/
def pendingOk (st : FastState) : Bool :=
  st.pending.all fun p => isSuccessEntry (alookup p.1 st.idem)

/-- The state invariant of the fast path: the seat counter stays within
`[0, totalSeats]`, in-flight reservations account for at most the seats
currently marked sold, their keys are distinct, and each is backed by a
cached success response. -/
def Inv (st : FastState) : Prop :=
  0 ≤ st.cache.seatsSold ∧
  st.cache.seatsSold ≤ st.cache.totalSeats ∧
  (pendingSum st : Int) ≤ st.cache.seatsSold ∧
  (st.pending.map Prod.fst).Nodup ∧
  pendingOk st = true

instance (st : FastState) : Decidable (Inv st) := by
  unfold Inv
  infer_instance

/-! ### Aggregate quantity reserved by success responses -/

/-- Did an `attemptPurchase` result make a fresh reservation (success
response not served from the idempotency cache)? -/
def isFreshSuccess : Resp × Bool → Bool
  | (Resp.success _, false) => true
  | _ => false

/-- Total quantity reserved by the attempts of a request sequence that
receive a (fresh) success response, executing the attempts in order. -/
def attemptsAgg (st : FastState) : List (String × Nat) → Nat
  | [] => 0
  | (k, q) :: rest =>
    (if isFreshSuccess (attemptPurchase st k q).1 then q else 0) +
      attemptsAgg (attemptPurchase st k q).2 rest

/-! ### The fast-path HTTP controller (`purchaseTickets`) and metrics counters -/

/-- The two purchase counters of the metrics store
(`metricsStore.successPurchases` / `failedPurchases`). -/
structure Metrics where
  successPurchases : Nat
  failedPurchases : Nat
  deriving DecidableEq, Repr

/-- A JSON body sent by the fast-path purchase controller: `{error}` on the
`result.error` branch, `{success, seatsRemaining}` otherwise (the controller
strips `statusCode` and `isIdempotent` before responding). -/
inductive HttpBody where
  | errBody (error : String)
  | okBody (success : Bool) (seatsRemaining : Int)
  deriving DecidableEq, Repr

/-- `POST /purchase` (`purchaseTickets` in `ticket.controller.js`): runs
`attemptPurchase`, records the purchase counters, and shapes the HTTP
response.  Returns `((status, body), (state, metrics))`. -/
def purchaseTickets (st : FastState) (m : Metrics) (k : String) (q : Nat) :
    (Nat × HttpBody) × FastState × Metrics :=
  let res := attemptPurchase st k q
  match res.1.1, res.1.2 with
  | Resp.soldOut rem, _ =>
      (((Resp.soldOut rem).statusCodeOf, HttpBody.errBody "SOLD_OUT"), res.2,
        { m with failedPurchases := m.failedPurchases + 1 })
  | Resp.success rem, true =>
      (((Resp.success rem).statusCodeOf, HttpBody.okBody true rem), res.2, m)
  | Resp.success rem, false =>
      (((Resp.success rem).statusCodeOf, HttpBody.okBody true rem), res.2,
        { m with successPurchases := m.successPurchases + 1 })

/-- A concrete fast-path state used for instantiations: a sold-out event,
one cached rejection under key "a", one in-flight reservation under "b". -/
def exSoldOutState : FastState :=
  ⟨⟨5, 5⟩, [("a", Resp.soldOut 0), ("b", Resp.success 0)], [("b", 5)]⟩

/-- A concrete event sequence: the in-flight reservation rolls back (freeing
its seats), a background write failure is ignored, a new purchase runs. -/
def exOps : List FastOp :=
  [FastOp.persistFailed "b", FastOp.soldOutWriteFailed "a", FastOp.attempt "c" 2]

/-! ### Persisted rows and the CRUD purchase path (`purchase.service.js`,
`event.model.js`, `purchase.model.js`) -/

/-- A persisted `events` row (timestamps and `name` omitted; no verified
claim mentions them). -/
structure EventRow where
  id : String
  totalSeats : Int
  seatsSold : Int
  deriving DecidableEq, Repr

/-- A persisted `purchases` row (`responseBody` and timestamps omitted). -/
structure PurchaseRow where
  eventId : Option String
  quantity : Int
  idempotencyKey : String
  statusCode : Option Int
  wasSuccessful : Option Bool
  deriving DecidableEq, Repr

/-- The two persisted tables. -/
structure Db where
  events : List EventRow
  purchases : List PurchaseRow
  deriving DecidableEq, Repr

/-- First row satisfying a predicate (`findUnique` over a unique column). -/
def findRow {α : Type} (p : α → Bool) : List α → Option α
  | [] => none
  | x :: xs => if p x then some x else findRow p xs

/-- `prisma.event.findUnique({where:{id}})` (ids are unique). -/
def findEventById (db : Db) (id : String) : Option EventRow :=
  findRow (fun e => e.id == id) db.events

/-- `getPurchaseByIdempotencyKey` (`idempotencyKey` is a unique column). -/
def findPurchaseByKey (db : Db) (key : String) : Option PurchaseRow :=
  findRow (fun p => p.idempotencyKey == key) db.purchases

instance {ε α : Type} [DecidableEq ε] [DecidableEq α] : DecidableEq (Except ε α) := fun a b =>
  match a, b with
  | Except.ok x, Except.ok y =>
    if h : x = y then isTrue (h ▸ rfl) else isFalse (fun he => h (Except.ok.inj he))
  | Except.error x, Except.error y =>
    if h : x = y then isTrue (h ▸ rfl) else isFalse (fun he => h (Except.error.inj he))
  | Except.ok _, Except.error _ => isFalse (fun he => Except.noConfusion he)
  | Except.error _, Except.ok _ => isFalse (fun he => Except.noConfusion he)

/-- `hasAvailableSeats` from `event.model.js`:
`(event.seatsSold + requestedQuantity) <= event.totalSeats`. -/
def hasAvailableSeats (event : EventRow) (requestedQuantity : Int) : Bool :=
  decide (event.seatsSold + requestedQuantity ≤ event.totalSeats)

/-- `tx.event.update({where:{id}, data:{seatsSold:{increment:q}}})`. -/
def incrementSeatsSold (db : Db) (id : String) (q : Int) : Db :=
  { db with events := db.events.map fun e =>
      if e.id == id then { e with seatsSold := e.seatsSold + q } else e }

/-- An application error from `createApiError` in `apiError.js`. -/
structure ApiError where
  statusCode : Nat
  message : String
  isOperational : Bool
  stack : String
  deriving DecidableEq, Repr

/-- `createApiError(statusCode, message, isOperational = true, stack = "")`. -/
def createApiError (statusCode : Nat) (message : String) (isOperational : Bool)
    (stack : String) : ApiError :=
  ⟨statusCode, message, isOperational, stack⟩

/-- The object returned by `PurchaseService.purchaseTickets`. -/
structure PurchaseResult where
  purchase : PurchaseRow
  isNewPurchase : Bool
  message : String
  deriving DecidableEq, Repr

/-- The Conflict message interpolated by the service. -/
def conflictMessage (q : Int) (event : EventRow) : String :=
  s!"Not enough seats available. Requested: {q}, Available: {event.totalSeats - event.seatsSold}"

/-- `PurchaseService.purchaseTickets({eventId, quantity, idempotencyKey})`:
validation (JS truthiness makes `0`/`""` count as missing), idempotency
lookup, then the transactional check-then-increment.  Returns the result or
thrown `ApiError` together with the database after the call (unchanged
whenever the call throws, since the transaction aborts). -/
def crudPurchaseTickets (db : Db) (eventId : Option String) (quantity : Option Int)
    (idempotencyKey : Option String) : Except ApiError PurchaseResult × Db :=
  match eventId, quantity, idempotencyKey with
  | some eid, some q, some key =>
    if eid = "" ∨ q = 0 ∨ key = "" then
      (Except.error (createApiError 400
        "Event ID, quantity, and idempotency key are required" true ""), db)
    else if q ≤ 0 then
      (Except.error (createApiError 400 "Quantity must be greater than 0" true ""), db)
    else if q > 10 then
      (Except.error (createApiError 400
        "Cannot purchase more than 10 tickets at once" true ""), db)
    else
      match findPurchaseByKey db key with
      | some existing =>
        (Except.ok ⟨existing, false, "Purchase already exists with this idempotency key"⟩, db)
      | none =>
        match findEventById db eid with
        | none => (Except.error (createApiError 404 "Event not found" true ""), db)
        | some event =>
          if hasAvailableSeats event q then
            let purchase : PurchaseRow := ⟨some eid, q, key, none, none⟩
            (Except.ok ⟨purchase, true, "Purchase successful"⟩,
              incrementSeatsSold { db with purchases := db.purchases ++ [purchase] } eid q)
          else
            (Except.error (createApiError 409 (conflictMessage q event) true ""), db)
  | _, _, _ =>
    (Except.error (createApiError 400
      "Event ID, quantity, and idempotency key are required" true ""), db)

/-- The status code chosen by the CRUD purchase controller:
`result.isNewPurchase ? 201 : 200`. -/
def crudPurchaseStatusCode (r : PurchaseResult) : Nat :=
  if r.isNewPurchase then 201 else 200

/-- The row created by the fast path's background record of a rejected
attempt (`statusCode: 409, wasSuccessful: false`, carrying the requested
quantity). -/
def soldOutPurchaseRow (eventId : Option String) (q : Nat) (key : String) : PurchaseRow :=
  ⟨eventId, (q : Int), key, some 409, some false⟩

/-- The row created by the fast path's deferred persistence of a successful
reservation (`statusCode: 200, wasSuccessful: true`). -/
def successPurchaseRow (eventId : Option String) (q : Nat) (key : String) : PurchaseRow :=
  ⟨eventId, (q : Int), key, some 200, some true⟩

/-- `getPurchaseStats` from `purchase.model.js`: `(count of all purchase
rows, sum of quantity over all purchase rows, defaulting to 0)` — no filter
on `wasSuccessful`. -/
def getPurchaseStats (db : Db) : Nat × Int :=
  (db.purchases.length, (db.purchases.map PurchaseRow.quantity).sum)

/-- Seats actually sold according to the purchase rows: the quantity summed
over successful rows only (not a function of the source; used to compare
against the reported statistic). -/
def successfulSeats (db : Db) : Int :=
  ((db.purchases.filter fun p => p.wasSuccessful == some true).map PurchaseRow.quantity).sum

/-! ### Error middleware and validation layer (`errors.js`, validation) -/

/-- A JSON body of an error-ish HTTP response: the error-middleware shape
`{success, statusCode, message, stack}` or the validation-middleware shape
`{success, error, message}`. -/
inductive RespBody where
  | errorShape (success : Bool) (statusCode : Nat) (message : String) (stack : String)
  | validationShape (success : Bool) (error : String) (message : String)
  deriving DecidableEq, Repr

/-- Does a body have the claimed shape `{success:false, statusCode, message,
stack}`? -/
def hasErrorShape : RespBody → Bool
  | RespBody.errorShape false _ _ _ => true
  | _ => false

/-- `errorHandler` from `errors.js`: a non-operational error has its status
forced to 500 and its message replaced by the generic status text; the body
is `{success:false, statusCode, message, stack}`. -/
def errorHandler (err : ApiError) : Nat × RespBody :=
  let statusCode := if err.isOperational then err.statusCode else 500
  let message := if err.isOperational then err.message else "Internal Server Error"
  (statusCode, RespBody.errorShape false statusCode message err.stack)

/-- A request-body value for the `quantity` field: an integer, or anything
failing the schema's integer check. -/
inductive JsVal where
  | intVal (n : Int)
  | nonInt
  deriving DecidableEq, Repr

/-- The `validateBody(purchaseSchema)` middleware: `quantity` must be an
integer in `[1, 10]`; on failure it responds itself with status 400 and
body `{success:false, error:'VALIDATION_ERROR', message}` (bypassing the
error middleware). -/
def validatePurchaseBody (quantity : JsVal) : Except (Nat × RespBody) Int :=
  match quantity with
  | JsVal.nonInt =>
    Except.error (400, RespBody.validationShape false "VALIDATION_ERROR"
      "Quantity must be an integer")
  | JsVal.intVal n =>
    if n < 1 then
      Except.error (400, RespBody.validationShape false "VALIDATION_ERROR"
        "Quantity must be at least 1")
    else if n > 10 then
      Except.error (400, RespBody.validationShape false "VALIDATION_ERROR"
        "Quantity cannot exceed 10")
    else Except.ok n

/-! ### Metrics collector (`metrics.js`) -/

/-- `recordResponseTime`: push the sample, then evict the oldest when the
window exceeds `maxRequestTimes = 1000`. -/
def recordResponseTime (requestTimes : List Nat) (t : Nat) : List Nat :=
  let times := requestTimes ++ [t]
  if times.length > 1000 then times.drop 1 else times

/-- `getP95Latency`: 0 on an empty window; otherwise sort ascending and take
index `ceil(n * 0.95) - 1` (`sorted[index] || 0`).  `Math.ceil(n * 0.95)`
agrees with the exact `⌈19n/20⌉ = (19n + 19) / 20` for every window size the
cap admits (n ≤ 1000), since the float product `n * 0.95` rounds to within
half an ulp of the exact value there. -/
def getP95Latency (requestTimes : List Nat) : Nat :=
  if requestTimes.length = 0 then 0
  else
    let sorted := requestTimes.insertionSort (· ≤ ·)
    let index := (19 * requestTimes.length + 19) / 20 - 1
    sorted.getD index 0

/-- Example database for the transactional-purchase example: one event with
`totalSeats = 10, seatsSold = 8`, no purchases. -/
def exC3Db : Db := ⟨[⟨"e", 10, 8⟩], []⟩

/-- Example database for the replay example: one event and one existing
purchase row under key "k" (quantity 2). -/
def exC6Db : Db := ⟨[⟨"e", 10, 2⟩], [⟨some "e", 2, "k", none, none⟩]⟩

/-- Example database mixing one persisted fast-path success (quantity 2) and
one recorded fast-path rejection (quantity 6). -/
def exStatsDb : Db :=
  ⟨[⟨"e", 10, 2⟩], [successPurchaseRow (some "e") 2 "k1", soldOutPurchaseRow (some "e") 6 "k2"]⟩

/-! ## Lemmas and claim theorems -/

theorem alookup_cons_ne {α : Type} (k k' : String) (v : α) (l : List (String × α))
    (h : k' ≠ k) : alookup k ((k', v) :: l) = alookup k l := by
  simp [alookup, h]

theorem alookup_aerase_ne {α : Type} (k k' : String) (l : List (String × α))
    (h : k' ≠ k) : alookup k' (aerase k l) = alookup k' l := by
  induction l with
  | nil => rfl
  | cons hd tl ih =>
    obtain ⟨k'', v⟩ := hd
    by_cases hk : k'' = k
    · simp [aerase, hk, alookup, ih, show ¬ (k = k') from fun he => h he.symm]
    · by_cases hk' : k'' = k'
      · subst hk'
        simp [aerase, hk, alookup]
      · simp [aerase, hk, alookup, hk', ih]

theorem alookup_aerase_self {α : Type} (k : String) (l : List (String × α)) :
    alookup k (aerase k l) = none := by
  induction l with
  | nil => rfl
  | cons hd tl ih =>
    obtain ⟨k', v⟩ := hd
    by_cases hk : k' = k
    · simp [aerase, hk, ih]
    · simp [aerase, hk, alookup, ih]

theorem aerase_of_alookup_none {α : Type} (k : String) (l : List (String × α))
    (h : alookup k l = none) : aerase k l = l := by
  induction l with
  | nil => rfl
  | cons hd tl ih =>
    obtain ⟨k', v⟩ := hd
    by_cases hk : k' = k
    · simp [alookup, hk] at h
    · simp [alookup, hk] at h
      simp [aerase, hk, ih h]

theorem alookup_eq_none_of_not_mem {α : Type} (k : String) (l : List (String × α))
    (h : k ∉ l.map Prod.fst) : alookup k l = none := by
  induction l with
  | nil => rfl
  | cons hd tl ih =>
    obtain ⟨k', v⟩ := hd
    simp only [List.map_cons, List.mem_cons] at h
    push_neg at h
    simp [alookup, show ¬ (k' = k) from fun he => h.1 he.symm, ih h.2]

theorem mem_keys_of_alookup_isSome {α : Type} (k : String) (l : List (String × α))
    (h : (alookup k l).isSome) : k ∈ l.map Prod.fst := by
  by_contra hmem
  rw [alookup_eq_none_of_not_mem k l hmem] at h
  simp at h
theorem isSuccessEntry_iff (o : Option Resp) :
    isSuccessEntry o = true ↔ ∃ r, o = some (Resp.success r) := by
  cases o with
  | none => simp [isSuccessEntry]
  | some r => cases r <;> simp [isSuccessEntry]

theorem pendingOk_iff (st : FastState) :
    pendingOk st = true ↔
      ∀ p ∈ st.pending, ∃ r, alookup p.1 st.idem = some (Resp.success r) := by
  simp [pendingOk, List.all_eq_true, isSuccessEntry_iff]

theorem aerase_sublist {α : Type} (k : String) (l : List (String × α)) :
    (aerase k l).Sublist l := by
  induction l with
  | nil => exact List.Sublist.refl _
  | cons hd tl ih =>
    obtain ⟨k', v⟩ := hd
    by_cases hk : k' = k
    · simp only [aerase, if_pos hk]
      exact ih.cons _
    · simp only [aerase, if_neg hk]
      exact ih.cons₂ _

theorem mem_aerase {α : Type} (k : String) (l : List (String × α)) (p : String × α)
    (h : p ∈ aerase k l) : p ∈ l ∧ p.1 ≠ k := by
  induction l with
  | nil => simp [aerase] at h
  | cons hd tl ih =>
    obtain ⟨k', v⟩ := hd
    by_cases hk : k' = k
    · simp only [aerase, hk, if_pos rfl] at h
      exact ⟨List.mem_cons_of_mem _ (ih h).1, (ih h).2⟩
    · simp only [aerase, hk, if_neg hk] at h
      rcases List.mem_cons.1 h with h' | h'
      · subst h'
        exact ⟨List.mem_cons_self _ _, hk⟩
      · exact ⟨List.mem_cons_of_mem _ (ih h').1, (ih h').2⟩

theorem sum_aerase_le (k : String) (l : List (String × Nat)) :
    ((aerase k l).map Prod.snd).sum ≤ (l.map Prod.snd).sum := by
  induction l with
  | nil => simp [aerase]
  | cons hd tl ih =>
    obtain ⟨k', v⟩ := hd
    by_cases hk : k' = k
    · simp only [aerase, if_pos hk, List.map_cons, List.sum_cons]
      omega
    · simp only [aerase, if_neg hk, List.map_cons, List.sum_cons]
      omega

theorem sum_aerase_of_alookup (k : String) (q : Nat) (l : List (String × Nat))
    (hnd : (l.map Prod.fst).Nodup) (h : alookup k l = some q) :
    (l.map Prod.snd).sum = q + ((aerase k l).map Prod.snd).sum := by
  induction l with
  | nil => simp [alookup] at h
  | cons hd tl ih =>
    obtain ⟨k', v⟩ := hd
    simp only [List.map_cons, List.nodup_cons] at hnd
    by_cases hk : k' = k
    · simp only [alookup, if_pos hk, Option.some.injEq] at h
      subst h
      have hmem : k ∉ tl.map Prod.fst := hk ▸ hnd.1
      have : aerase k tl = tl :=
        aerase_of_alookup_none k tl (alookup_eq_none_of_not_mem k tl hmem)
      simp only [aerase, if_pos hk, this, List.map_cons, List.sum_cons]
    · simp only [alookup, if_neg hk] at h
      have := ih hnd.2 h
      simp only [aerase, if_neg hk, List.map_cons, List.sum_cons]
      omega

theorem Inv_attempt (st : FastState) (k : String) (q : Nat) (h : Inv st) :
    Inv (attemptPurchase st k q).2 := by
  obtain ⟨h0, h1, h2, h3, h4⟩ := h
  rw [pendingOk_iff] at h4
  unfold attemptPurchase
  cases hke : alookup k st.idem with
  | some cached => exact ⟨h0, h1, h2, h3, (pendingOk_iff st).2 h4⟩
  | none =>
    have hkmem : ∀ p ∈ st.pending, p.1 ≠ k := by
      intro p hp he
      obtain ⟨r, hr⟩ := h4 p hp
      rw [he, hke] at hr
      exact Option.noConfusion hr
    dsimp only
    by_cases hq : (q : Int) > st.cache.totalSeats - st.cache.seatsSold
    · simp only [if_pos hq]
      refine ⟨h0, h1, h2, h3, (pendingOk_iff _).2 ?_⟩
      intro p hp
      obtain ⟨r, hr⟩ := h4 p hp
      exact ⟨r, by
        dsimp only
        rw [alookup_cons_ne _ _ _ _ (Ne.symm (hkmem p hp))]
        exact hr⟩
    · simp only [if_neg hq]
      push_neg at hq
      refine ⟨?_, ?_, ?_, ?_, ?_⟩
      · dsimp only
        omega
      · dsimp only
        omega
      · dsimp only [pendingSum, List.map_cons, List.sum_cons]
        simp only [pendingSum] at h2
        push_cast
        push_cast at h2
        omega
      · dsimp only [List.map_cons]
        rw [List.nodup_cons]
        constructor
        · intro hmem
          obtain ⟨p, hp, hfst⟩ := List.mem_map.1 hmem
          exact hkmem p hp hfst
        · exact h3
      · refine (pendingOk_iff _).2 ?_
        intro p hp
        dsimp only at hp ⊢
        rcases List.mem_cons.1 hp with h' | h'
        · subst h'
          exact ⟨st.cache.totalSeats - (st.cache.seatsSold + (q : Int)), by simp [alookup]⟩
        · obtain ⟨r, hr⟩ := h4 p h'
          exact ⟨r, by rw [alookup_cons_ne _ _ _ _ (Ne.symm (hkmem p h'))]; exact hr⟩

theorem Inv_persistOk (st : FastState) (k : String) (h : Inv st) :
    Inv (persistOk st k) := by
  obtain ⟨h0, h1, h2, h3, h4⟩ := h
  rw [pendingOk_iff] at h4
  unfold persistOk
  cases hkp : alookup k st.pending with
  | none => exact ⟨h0, h1, h2, h3, (pendingOk_iff st).2 h4⟩
  | some q =>
    refine ⟨h0, h1, ?_, ?_, ?_⟩
    · have hle := sum_aerase_le k st.pending
      have : ((aerase k st.pending).map Prod.snd).sum ≤ pendingSum st := hle
      calc (((aerase k st.pending).map Prod.snd).sum : Int)
          ≤ (pendingSum st : Int) := by exact_mod_cast this
        _ ≤ st.cache.seatsSold := h2
    · exact h3.sublist ((aerase_sublist k st.pending).map Prod.fst)
    · refine (pendingOk_iff _).2 ?_
      intro p hp
      exact h4 p (mem_aerase k st.pending p hp).1

theorem Inv_persistFail (st : FastState) (k : String) (h : Inv st) :
    Inv (persistFail st k) := by
  obtain ⟨h0, h1, h2, h3, h4⟩ := h
  rw [pendingOk_iff] at h4
  unfold persistFail
  cases hkp : alookup k st.pending with
  | none => exact ⟨h0, h1, h2, h3, (pendingOk_iff st).2 h4⟩
  | some q =>
    dsimp only
    have hsum := sum_aerase_of_alookup k q st.pending h3 hkp
    simp only [pendingSum] at h2
    refine ⟨?_, ?_, ?_, ?_, ?_⟩
    · dsimp only
      omega
    · dsimp only
      omega
    · dsimp only [pendingSum]
      omega
    · exact h3.sublist ((aerase_sublist k st.pending).map Prod.fst)
    · refine (pendingOk_iff _).2 ?_
      intro p hp
      dsimp only at hp ⊢
      obtain ⟨hpin, hpne⟩ := mem_aerase k st.pending p hp
      obtain ⟨r, hr⟩ := h4 p hpin
      exact ⟨r, by rw [alookup_aerase_ne k p.1 st.idem hpne]; exact hr⟩

/-- Every single fast-path event — a purchase attempt, a successful deferred
persistence, a failed one (compensating rollback) or an ignored background
write failure — preserves the invariant. -/
theorem Inv_step (st : FastState) (op : FastOp) (h : Inv st) : Inv (step st op) := by
  cases op with
  | attempt k q => exact Inv_attempt st k q h
  | persistSucceed k => exact Inv_persistOk st k h
  | persistFailed k => exact Inv_persistFail st k h
  | soldOutWriteFailed k => exact h

theorem Inv_run (st : FastState) (ops : List FastOp) (h : Inv st) : Inv (run st ops) := by
  induction ops generalizing st with
  | nil => exact h
  | cons op ops ih => exact ih _ (Inv_step st op h)

theorem Inv_initState (n : Nat) : Inv (initState n) := by
  refine ⟨le_refl _, ?_, ?_, ?_, ?_⟩ <;> simp [initState, pendingSum, pendingOk]
theorem attemptsAgg_le (reqs : List (String × Nat)) (st : FastState)
    (h0 : 0 ≤ st.cache.seatsSold) (h1 : st.cache.seatsSold ≤ st.cache.totalSeats) :
    (attemptsAgg st reqs : Int) ≤ st.cache.totalSeats - st.cache.seatsSold := by
  induction reqs generalizing st with
  | nil =>
    simp only [attemptsAgg, Nat.cast_zero]
    omega
  | cons req rest ih =>
    obtain ⟨k, q⟩ := req
    simp only [attemptsAgg]
    unfold attemptPurchase
    cases hke : alookup k st.idem with
    | some cached =>
      have hf : isFreshSuccess (cached, true) = false := by cases cached <;> rfl
      simp only [hf, Bool.false_eq_true, if_false, Nat.cast_add, Nat.cast_zero, zero_add]
      exact ih st h0 h1
    | none =>
      dsimp only
      by_cases hq : (q : Int) > st.cache.totalSeats - st.cache.seatsSold
      · simp only [if_pos hq]
        have hf : isFreshSuccess
            (Resp.soldOut (st.cache.totalSeats - st.cache.seatsSold), false) = false := rfl
        simp only [hf, Bool.false_eq_true, if_false, Nat.cast_add, Nat.cast_zero, zero_add]
        exact ih _ h0 h1
      · simp only [if_neg hq]
        push_neg at hq
        have hf : isFreshSuccess
            (Resp.success (st.cache.totalSeats - (st.cache.seatsSold + (q : Int))), false) = true := rfl
        simp only [hf, if_true, Nat.cast_add]
        have h' := ih
          { cache := { totalSeats := st.cache.totalSeats, seatsSold := st.cache.seatsSold + (q : Int) },
            idem := (k, Resp.success (st.cache.totalSeats - (st.cache.seatsSold + (q : Int)))) :: st.idem,
            pending := (k, q) :: st.pending }
          (by dsimp only; omega) (by dsimp only; omega)
        dsimp only at h'
        omega

/-! ### Sold-out idempotency entries are permanent -/

theorem mem_of_alookup {α : Type} (k : String) (v : α) (l : List (String × α))
    (h : alookup k l = some v) : (k, v) ∈ l := by
  induction l with
  | nil => simp [alookup] at h
  | cons hd tl ih =>
    obtain ⟨k', w⟩ := hd
    by_cases hk : k' = k
    · simp only [alookup, if_pos hk, Option.some.injEq] at h
      subst hk
      subst h
      exact List.mem_cons_self _ _
    · simp only [alookup, if_neg hk] at h
      exact List.mem_cons_of_mem _ (ih h)

/-- No single fast-path event removes or changes a cached `SOLD_OUT`
response: purchase attempts only add fresh entries, a successful persistence
touches no cache, the compensating rollback deletes only the entry of an
in-flight (successful) reservation, and the failure of the background write
for a rejected attempt is swallowed by its `catch` block. -/
theorem soldOut_sticky_step (st : FastState) (op : FastOp) (k : String) (r : Int)
    (hOk : pendingOk st = true)
    (h : alookup k st.idem = some (Resp.soldOut r)) :
    alookup k (step st op).idem = some (Resp.soldOut r) := by
  rw [pendingOk_iff] at hOk
  cases op with
  | attempt k' q =>
    show alookup k (attemptPurchase st k' q).2.idem = _
    unfold attemptPurchase
    cases hke : alookup k' st.idem with
    | some cached => exact h
    | none =>
      have hne : k' ≠ k := fun he => by rw [he, h] at hke; exact Option.noConfusion hke
      dsimp only
      by_cases hq : (q : Int) > st.cache.totalSeats - st.cache.seatsSold
      · simp only [if_pos hq]
        rw [alookup_cons_ne _ _ _ _ hne]
        exact h
      · simp only [if_neg hq]
        rw [alookup_cons_ne _ _ _ _ hne]
        exact h
  | persistSucceed k' =>
    show alookup k (persistOk st k').idem = _
    unfold persistOk
    cases hkp : alookup k' st.pending with
    | none => exact h
    | some q => exact h
  | persistFailed k' =>
    show alookup k (persistFail st k').idem = _
    unfold persistFail
    cases hkp : alookup k' st.pending with
    | none => exact h
    | some q =>
      have hpmem : (k', q) ∈ st.pending := mem_of_alookup k' q st.pending hkp
      obtain ⟨r', hr'⟩ := hOk (k', q) hpmem
      have hne : k ≠ k' := by
        intro he
        rw [← he, h] at hr'
        exact Resp.noConfusion (Option.some.inj hr')
      dsimp only
      rw [alookup_aerase_ne _ _ _ hne]
      exact h
  | soldOutWriteFailed k' => exact h

theorem soldOut_sticky_run (st : FastState) (ops : List FastOp) (k : String) (r : Int)
    (hInv : Inv st) (h : alookup k st.idem = some (Resp.soldOut r)) :
    alookup k (run st ops).idem = some (Resp.soldOut r) := by
  induction ops generalizing st with
  | nil => exact h
  | cons op ops ih =>
    exact ih (step st op) (Inv_step st op hInv)
      (soldOut_sticky_step st op k r hInv.2.2.2.2 h)

/-! ### Claim theorems for the fast path -/

/-- **C1.** For every sequence of fast-path purchase attempts executed
against a seat cache initialized with `totalSeats = N, seatsSold = 0`, the
aggregate quantity reserved by attempts that receive a (fresh) success
response never exceeds `N`; and the invariant `0 ≤ seatsSold ≤ totalSeats`
is preserved by every fast-path step, including compensating rollbacks
(idempotent replays of a success response reserve no seats and are counted
at quantity 0, matching the spec's "aggregate quantity reserved"). -/
theorem fastPath_no_oversell (n : Nat) (reqs : List (String × Nat))
    (st : FastState) (op : FastOp) (hInv : Inv st) :
    attemptsAgg (initState n) reqs ≤ n ∧ Inv (initState n) ∧ Inv (step st op) := by
  refine ⟨?_, Inv_initState n, Inv_step st op hInv⟩
  have h := attemptsAgg_le reqs (initState n)
    (by simp [initState]) (by simp [initState])
  simp only [initState] at h
  have h' : (attemptsAgg (initState n) reqs : Int) ≤ (n : Int) := by
    simpa [initState] using h
  exact_mod_cast h'

theorem fastPath_no_oversell_witness :
    attemptsAgg (initState 5) [("a", 2), ("b", 9), ("c", 3)] ≤ 5 ∧
      Inv (initState 5) ∧
      Inv (step (initState 5) (FastOp.attempt "a" 2)) :=
  fastPath_no_oversell 5 [("a", 2), ("b", 9), ("c", 3)]
    (initState 5) (FastOp.attempt "a" 2) (by decide)

/-- **C5.** A fast-path purchase with a fresh idempotency key and quantity
strictly greater than `seatsRemaining` returns the sold-out response object
`{error:'SOLD_OUT', statusCode:409, seatsRemaining}` carrying the current
`seatsRemaining`, and does not mutate the seat cache. -/
theorem soldOut_rejection_frame (st : FastState) (k : String) (q : Nat)
    (hk : alookup k st.idem = none)
    (hq : (q : Int) > st.cache.totalSeats - st.cache.seatsSold) :
    (attemptPurchase st k q).1.1 =
        Resp.soldOut (st.cache.totalSeats - st.cache.seatsSold) ∧
    (attemptPurchase st k q).1.1.errorField = some "SOLD_OUT" ∧
    (attemptPurchase st k q).1.1.statusCodeOf = 409 ∧
    (attemptPurchase st k q).1.1.seatsRemainingOf =
        st.cache.totalSeats - st.cache.seatsSold ∧
    (attemptPurchase st k q).2.cache = st.cache := by
  unfold attemptPurchase
  rw [hk]
  dsimp only
  rw [if_pos hq]
  exact ⟨rfl, rfl, rfl, rfl, rfl⟩

theorem soldOut_rejection_frame_witness :
    (attemptPurchase (initState 5) "a" 6).1.1 = Resp.soldOut 5 ∧
    (attemptPurchase (initState 5) "a" 6).1.1.errorField = some "SOLD_OUT" ∧
    (attemptPurchase (initState 5) "a" 6).1.1.statusCodeOf = 409 ∧
    (attemptPurchase (initState 5) "a" 6).1.1.seatsRemainingOf = 5 ∧
    (attemptPurchase (initState 5) "a" 6).2.cache = (initState 5).cache :=
  soldOut_rejection_frame (initState 5) "a" 6 (by decide) (by decide)

/-- **C4.** After a fresh successful optimistic reservation of quantity `q`
under key `k`, a failure of the deferred persistence step decrements
`cache.seatsSold` by exactly `q` (back to its prior value) and deletes the
idempotency entry for `k`, so a subsequent request with key `k` is evaluated
as a new request (not a replay) against the decremented cache. -/
theorem rollback_compensates (st : FastState) (k : String) (q q' : Nat)
    (hk : alookup k st.idem = none)
    (hkp : alookup k st.pending = none)
    (hq : (q : Int) ≤ st.cache.totalSeats - st.cache.seatsSold) :
    (attemptPurchase st k q).2.cache.seatsSold = st.cache.seatsSold + (q : Int) ∧
    (persistFail (attemptPurchase st k q).2 k).cache.seatsSold =
        (attemptPurchase st k q).2.cache.seatsSold - (q : Int) ∧
    (persistFail (attemptPurchase st k q).2 k).cache.seatsSold = st.cache.seatsSold ∧
    alookup k (persistFail (attemptPurchase st k q).2 k).idem = none ∧
    (persistFail (attemptPurchase st k q).2 k).pending = st.pending ∧
    (attemptPurchase (persistFail (attemptPurchase st k q).2 k) k q').1.2 = false := by
  have hnotlt : ¬ ((q : Int) > st.cache.totalSeats - st.cache.seatsSold) := not_lt.2 hq
  have hatt : (attemptPurchase st k q).2 =
      (⟨⟨st.cache.totalSeats, st.cache.seatsSold + (q : Int)⟩,
        (k, Resp.success (st.cache.totalSeats - (st.cache.seatsSold + (q : Int)))) :: st.idem,
        (k, q) :: st.pending⟩ : FastState) := by
    unfold attemptPurchase
    rw [hk]
    dsimp only
    rw [if_neg hnotlt]
  rw [hatt]
  have he1 : aerase k
      ((k, Resp.success (st.cache.totalSeats - (st.cache.seatsSold + (q : Int)))) :: st.idem) =
      st.idem := by
    simp only [aerase, if_pos rfl]
    exact aerase_of_alookup_none k st.idem hk
  have he2 : aerase k (((k, q) : String × Nat) :: st.pending) = st.pending := by
    simp only [aerase, if_pos rfl]
    exact aerase_of_alookup_none k st.pending hkp
  have hlp : alookup k (((k, q) : String × Nat) :: st.pending) = some q := by
    simp [alookup]
  have hfail : persistFail
      (⟨⟨st.cache.totalSeats, st.cache.seatsSold + (q : Int)⟩,
        (k, Resp.success (st.cache.totalSeats - (st.cache.seatsSold + (q : Int)))) :: st.idem,
        (k, q) :: st.pending⟩ : FastState) k =
      (⟨⟨st.cache.totalSeats, st.cache.seatsSold + (q : Int) - (q : Int)⟩,
        st.idem, st.pending⟩ : FastState) := by
    unfold persistFail
    dsimp only
    rw [hlp]
    dsimp only
    rw [he1, he2]
  rw [hfail]
  refine ⟨rfl, rfl, by dsimp only; omega, hk, rfl, ?_⟩
  unfold attemptPurchase
  dsimp only
  rw [hk]
  dsimp only
  split <;> rfl

theorem rollback_compensates_witness :
    (attemptPurchase (initState 5) "a" 3).2.cache.seatsSold = (0 : Int) + (3 : Int) ∧
    (persistFail (attemptPurchase (initState 5) "a" 3).2 "a").cache.seatsSold =
        (attemptPurchase (initState 5) "a" 3).2.cache.seatsSold - (3 : Int) ∧
    (persistFail (attemptPurchase (initState 5) "a" 3).2 "a").cache.seatsSold = (0 : Int) ∧
    alookup "a" (persistFail (attemptPurchase (initState 5) "a" 3).2 "a").idem = none ∧
    (persistFail (attemptPurchase (initState 5) "a" 3).2 "a").pending = [] ∧
    (attemptPurchase (persistFail (attemptPurchase (initState 5) "a" 3).2 "a") "a" 2).1.2
      = false :=
  rollback_compensates (initState 5) "a" 3 2 (by decide) (by decide) (by decide)

/-- **C9.** A cached `SOLD_OUT` response is never removed by any later
fast-path operation (the failed background write of the rejected attempt is
ignored rather than deleting the entry), so every subsequent attempt with
that key keeps returning the same `SOLD_OUT` response — even after
compensating rollbacks have made seats available again. -/
theorem soldOut_entry_permanent (st : FastState) (ops : List FastOp) (k : String)
    (r : Int) (q : Nat) (hInv : Inv st)
    (h : alookup k st.idem = some (Resp.soldOut r)) :
    alookup k (run st ops).idem = some (Resp.soldOut r) ∧
    (attemptPurchase (run st ops) k q).1 = (Resp.soldOut r, true) ∧
    (attemptPurchase (run st ops) k q).2 = run st ops := by
  have hfinal := soldOut_sticky_run st ops k r hInv h
  refine ⟨hfinal, ?_, ?_⟩ <;>
    · unfold attemptPurchase
      rw [hfinal]

theorem soldOut_entry_permanent_witness :
    alookup "a" (run exSoldOutState exOps).idem = some (Resp.soldOut 0) ∧
    (attemptPurchase (run exSoldOutState exOps) "a" 1).1 = (Resp.soldOut 0, true) ∧
    (attemptPurchase (run exSoldOutState exOps) "a" 1).2 = run exSoldOutState exOps :=
  soldOut_entry_permanent exSoldOutState exOps "a" 0 1 (by decide) (by decide)

/-- **C2 counterexample.** Against a cache with zero capacity, two requests
with the identical key "a" are both rejected: the replay returns identical
content, but the controller hits the `result.error` branch before the
`isIdempotent` check and increments `failedPurchases` a second time (a
counter mutation), and no reservation at all occurs (not exactly one) —
refuting the claim as universally stated. -/
theorem idempotent_replay_counter_cex :
    (purchaseTickets (initState 0) ⟨0, 0⟩ "a" 1).2.2.failedPurchases = 1 ∧
    (purchaseTickets (purchaseTickets (initState 0) ⟨0, 0⟩ "a" 1).2.1
        (purchaseTickets (initState 0) ⟨0, 0⟩ "a" 1).2.2 "a" 1).2.2.failedPurchases = 2 ∧
    (purchaseTickets (purchaseTickets (initState 0) ⟨0, 0⟩ "a" 1).2.1
        (purchaseTickets (initState 0) ⟨0, 0⟩ "a" 1).2.2 "a" 1).1 =
      (purchaseTickets (initState 0) ⟨0, 0⟩ "a" 1).1 ∧
    (purchaseTickets (purchaseTickets (initState 0) ⟨0, 0⟩ "a" 1).2.1
        (purchaseTickets (initState 0) ⟨0, 0⟩ "a" 1).2.2 "a" 1).2.1.pending = [] := by
  decide

/-- **C2 (amended).** When the first of two fast-path requests carrying the
identical idempotency key makes a fresh successful reservation, exactly one
reservation of seats occurs; the second request returns status and body
identical to the first, and the replay mutates neither the caches nor the
purchase counters.  (For a sold-out first request the replay still returns
identical content and mutates no cache, but `failedPurchases` is
incremented on each replay, as the counterexample shows.) -/
theorem idempotent_replay_success (st : FastState) (m : Metrics) (k : String)
    (q q' : Nat) (hk : alookup k st.idem = none)
    (hq : (q : Int) ≤ st.cache.totalSeats - st.cache.seatsSold) :
    (purchaseTickets (purchaseTickets st m k q).2.1
        (purchaseTickets st m k q).2.2 k q').1 = (purchaseTickets st m k q).1 ∧
    (purchaseTickets (purchaseTickets st m k q).2.1
        (purchaseTickets st m k q).2.2 k q').2.1 = (purchaseTickets st m k q).2.1 ∧
    (purchaseTickets (purchaseTickets st m k q).2.1
        (purchaseTickets st m k q).2.2 k q').2.2 = (purchaseTickets st m k q).2.2 ∧
    (purchaseTickets st m k q).2.1.cache.seatsSold = st.cache.seatsSold + (q : Int) ∧
    (purchaseTickets st m k q).2.1.pending = (k, q) :: st.pending ∧
    (purchaseTickets st m k q).2.2.successPurchases = m.successPurchases + 1 ∧
    (purchaseTickets st m k q).2.2.failedPurchases = m.failedPurchases := by
  have hnotlt : ¬ ((q : Int) > st.cache.totalSeats - st.cache.seatsSold) := not_lt.2 hq
  have hatt : attemptPurchase st k q =
      ((Resp.success (st.cache.totalSeats - (st.cache.seatsSold + (q : Int))), false),
        (⟨⟨st.cache.totalSeats, st.cache.seatsSold + (q : Int)⟩,
          (k, Resp.success (st.cache.totalSeats - (st.cache.seatsSold + (q : Int)))) :: st.idem,
          (k, q) :: st.pending⟩ : FastState)) := by
    unfold attemptPurchase
    rw [hk]
    dsimp only
    rw [if_neg hnotlt]
  have h1 : purchaseTickets st m k q =
      ((200, HttpBody.okBody true (st.cache.totalSeats - (st.cache.seatsSold + (q : Int)))),
        (⟨⟨st.cache.totalSeats, st.cache.seatsSold + (q : Int)⟩,
          (k, Resp.success (st.cache.totalSeats - (st.cache.seatsSold + (q : Int)))) :: st.idem,
          (k, q) :: st.pending⟩ : FastState),
        (⟨m.successPurchases + 1, m.failedPurchases⟩ : Metrics)) := by
    unfold purchaseTickets
    rw [hatt]
    rfl
  have hlook : alookup k
      ((k, Resp.success (st.cache.totalSeats - (st.cache.seatsSold + (q : Int)))) :: st.idem) =
      some (Resp.success (st.cache.totalSeats - (st.cache.seatsSold + (q : Int)))) := by
    simp [alookup]
  have hatt2 : attemptPurchase
      (⟨⟨st.cache.totalSeats, st.cache.seatsSold + (q : Int)⟩,
        (k, Resp.success (st.cache.totalSeats - (st.cache.seatsSold + (q : Int)))) :: st.idem,
        (k, q) :: st.pending⟩ : FastState) k q' =
      ((Resp.success (st.cache.totalSeats - (st.cache.seatsSold + (q : Int))), true),
        (⟨⟨st.cache.totalSeats, st.cache.seatsSold + (q : Int)⟩,
          (k, Resp.success (st.cache.totalSeats - (st.cache.seatsSold + (q : Int)))) :: st.idem,
          (k, q) :: st.pending⟩ : FastState)) := by
    unfold attemptPurchase
    dsimp only
    rw [hlook]
  have h2 : purchaseTickets
      (⟨⟨st.cache.totalSeats, st.cache.seatsSold + (q : Int)⟩,
        (k, Resp.success (st.cache.totalSeats - (st.cache.seatsSold + (q : Int)))) :: st.idem,
        (k, q) :: st.pending⟩ : FastState)
      (⟨m.successPurchases + 1, m.failedPurchases⟩ : Metrics) k q' =
      ((200, HttpBody.okBody true (st.cache.totalSeats - (st.cache.seatsSold + (q : Int)))),
        (⟨⟨st.cache.totalSeats, st.cache.seatsSold + (q : Int)⟩,
          (k, Resp.success (st.cache.totalSeats - (st.cache.seatsSold + (q : Int)))) :: st.idem,
          (k, q) :: st.pending⟩ : FastState),
        (⟨m.successPurchases + 1, m.failedPurchases⟩ : Metrics)) := by
    unfold purchaseTickets
    rw [hatt2]
    rfl
  rw [h1]
  dsimp only
  rw [h2]
  exact ⟨rfl, rfl, rfl, rfl, rfl, rfl, rfl⟩

theorem idempotent_replay_success_witness :
    (purchaseTickets (purchaseTickets (initState 5) ⟨0, 0⟩ "a" 2).2.1
        (purchaseTickets (initState 5) ⟨0, 0⟩ "a" 2).2.2 "a" 3).1 =
      (purchaseTickets (initState 5) ⟨0, 0⟩ "a" 2).1 ∧
    (purchaseTickets (purchaseTickets (initState 5) ⟨0, 0⟩ "a" 2).2.1
        (purchaseTickets (initState 5) ⟨0, 0⟩ "a" 2).2.2 "a" 3).2.1 =
      (purchaseTickets (initState 5) ⟨0, 0⟩ "a" 2).2.1 ∧
    (purchaseTickets (purchaseTickets (initState 5) ⟨0, 0⟩ "a" 2).2.1
        (purchaseTickets (initState 5) ⟨0, 0⟩ "a" 2).2.2 "a" 3).2.2 =
      (purchaseTickets (initState 5) ⟨0, 0⟩ "a" 2).2.2 ∧
    (purchaseTickets (initState 5) ⟨0, 0⟩ "a" 2).2.1.cache.seatsSold = (0 : Int) + 2 ∧
    (purchaseTickets (initState 5) ⟨0, 0⟩ "a" 2).2.1.pending = [("a", 2)] ∧
    (purchaseTickets (initState 5) ⟨0, 0⟩ "a" 2).2.2.successPurchases = 1 ∧
    (purchaseTickets (initState 5) ⟨0, 0⟩ "a" 2).2.2.failedPurchases = 0 :=
  idempotent_replay_success (initState 5) ⟨0, 0⟩ "a" 2 3 (by decide) (by decide)
/-! ### Claim theorems for the CRUD path, error model, metrics and stats -/

theorem findEventById_incrementSeatsSold (db : Db) (i : String) (q : Int) :
    findEventById (incrementSeatsSold db i q) i =
      (findEventById db i).map fun e =>
        (⟨e.id, e.totalSeats, e.seatsSold + q⟩ : EventRow) := by
  unfold findEventById incrementSeatsSold
  obtain ⟨evs, ps⟩ := db
  dsimp only
  induction evs with
  | nil => rfl
  | cons e tl ih =>
    by_cases he : (e.id == i) = true
    · simp [findRow, he]
    · simp [findRow, he] at ih ⊢
      exact ih

/-- **C3 counterexample.** A transactional purchase with a fresh key on the
existing event `totalSeats=10, seatsSold=8` and `quantity = 11` satisfies
`seatsSold + quantity > totalSeats`, yet the operation fails with the 400
validation error "Cannot purchase more than 10 tickets at once" — not with
Conflict 409 as the claim states for every such purchase. -/
theorem crud_overflow_quantity_cex :
    (8 : Int) + 11 > 10 ∧
    findPurchaseByKey exC3Db "k" = none ∧
    findEventById exC3Db "e" = some ⟨"e", 10, 8⟩ ∧
    (crudPurchaseTickets exC3Db (some "e") (some 11) (some "k")).1 =
      Except.error (createApiError 400
        "Cannot purchase more than 10 tickets at once" true "") ∧
    (createApiError 400 "Cannot purchase more than 10 tickets at once"
      true "").statusCode ≠ 409 := by
  decide

/-- **C3 (amended).** For every transactional purchase with a fresh
idempotency key on an existing event, whose inputs pass validation
(`quantity` in `[1,10]`, non-empty ids): if `seatsSold + quantity >
totalSeats` the operation fails with Conflict 409 leaving the database
unchanged; otherwise it creates exactly one purchase row, increments the
event's `seatsSold` by `quantity`, and returns the purchase with
`isNewPurchase = true`. -/
theorem crud_purchase_checkThenIncrement (db : Db) (eid key : String) (q : Int)
    (event : EventRow)
    (heid : eid ≠ "") (hkey : key ≠ "") (hq1 : 1 ≤ q) (hq10 : q ≤ 10)
    (hfresh : findPurchaseByKey db key = none)
    (hev : findEventById db eid = some event) :
    (event.seatsSold + q > event.totalSeats →
      crudPurchaseTickets db (some eid) (some q) (some key) =
        (Except.error (createApiError 409 (conflictMessage q event) true ""), db)) ∧
    (event.seatsSold + q ≤ event.totalSeats →
      (crudPurchaseTickets db (some eid) (some q) (some key)).1 =
        Except.ok ⟨⟨some eid, q, key, none, none⟩, true, "Purchase successful"⟩ ∧
      (crudPurchaseTickets db (some eid) (some q) (some key)).2.purchases =
        db.purchases ++ [⟨some eid, q, key, none, none⟩] ∧
      findEventById (crudPurchaseTickets db (some eid) (some q) (some key)).2 eid =
        some ⟨event.id, event.totalSeats, event.seatsSold + q⟩) := by
  have hno : ¬ (eid = "" ∨ q = 0 ∨ key = "") := by
    push_neg
    refine ⟨heid, ?_, hkey⟩
    omega
  have hq0 : ¬ (q ≤ 0) := by omega
  have hq11 : ¬ (q > 10) := by omega
  have hcrud : crudPurchaseTickets db (some eid) (some q) (some key) =
      (if hasAvailableSeats event q then
        (Except.ok ⟨⟨some eid, q, key, none, none⟩, true, "Purchase successful"⟩,
          incrementSeatsSold
            { db with purchases := db.purchases ++ [⟨some eid, q, key, none, none⟩] } eid q)
      else (Except.error (createApiError 409 (conflictMessage q event) true ""), db)) := by
    unfold crudPurchaseTickets
    dsimp only
    rw [if_neg hno, if_neg hq0, if_neg hq11, hfresh, hev]
  constructor
  · intro hover
    have hb : ¬ (hasAvailableSeats event q = true) := by
      simp only [hasAvailableSeats, decide_eq_true_eq]
      omega
    rw [hcrud, if_neg hb]
  · intro hle
    have hb : hasAvailableSeats event q = true := by
      simp only [hasAvailableSeats, decide_eq_true_eq]
      omega
    rw [hcrud, if_pos hb]
    refine ⟨rfl, rfl, ?_⟩
    show findEventById (incrementSeatsSold
      { db with purchases := db.purchases ++ [⟨some eid, q, key, none, none⟩] } eid q) eid = _
    rw [findEventById_incrementSeatsSold]
    have hev' : findEventById
        { db with purchases := db.purchases ++ [⟨some eid, q, key, none, none⟩] } eid =
        some event := hev
    rw [hev']
    rfl

theorem crud_purchase_checkThenIncrement_witness :
    crudPurchaseTickets exC3Db (some "e") (some 3) (some "k") =
      (Except.error (createApiError 409 (conflictMessage 3 ⟨"e", 10, 8⟩) true ""), exC3Db) :=
  (crud_purchase_checkThenIncrement exC3Db "e" "k" 3 ⟨"e", 10, 8⟩
    (by decide) (by decide) (by decide) (by decide) (by decide) (by decide)).1
    (by decide)

/-- **C6 counterexample.** The key "k" matches an existing purchase row, but
replaying it with `quantity = 11` fails with the 400 validation error
(validation runs before the idempotency lookup) instead of returning the
existing purchase with HTTP 200 as the claim states for every replayed
quantity. -/
theorem crud_replay_validation_cex :
    findPurchaseByKey exC6Db "k" = some ⟨some "e", 2, "k", none, none⟩ ∧
    (crudPurchaseTickets exC6Db (some "e") (some 11) (some "k")).1 =
      Except.error (createApiError 400
        "Cannot purchase more than 10 tickets at once" true "") := by
  decide

/-- **C6 (amended).** For every transactional purchase whose inputs pass
validation and whose `idempotencyKey` matches an existing purchase row, the
operation returns that existing row unchanged with `isNewPurchase = false`,
message "Purchase already exists with this idempotency key" and HTTP 200,
creating no row and leaving the whole database (hence every event's
`seatsSold`) unchanged — even when the replay supplies different (valid)
`quantity` or `eventId` values. -/
theorem crud_replay_returns_existing (db : Db) (eid key : String) (q : Int)
    (p : PurchaseRow)
    (heid : eid ≠ "") (hkey : key ≠ "") (hq1 : 1 ≤ q) (hq10 : q ≤ 10)
    (hkeyp : findPurchaseByKey db key = some p) :
    crudPurchaseTickets db (some eid) (some q) (some key) =
      (Except.ok ⟨p, false, "Purchase already exists with this idempotency key"⟩, db) ∧
    crudPurchaseStatusCode
      ⟨p, false, "Purchase already exists with this idempotency key"⟩ = 200 := by
  have hno : ¬ (eid = "" ∨ q = 0 ∨ key = "") := by
    push_neg
    refine ⟨heid, ?_, hkey⟩
    omega
  have hq0 : ¬ (q ≤ 0) := by omega
  have hq11 : ¬ (q > 10) := by omega
  constructor
  · unfold crudPurchaseTickets
    dsimp only
    rw [if_neg hno, if_neg hq0, if_neg hq11, hkeyp]
  · rfl

theorem crud_replay_returns_existing_witness :
    crudPurchaseTickets exC6Db (some "other") (some 9) (some "k") =
      (Except.ok ⟨⟨some "e", 2, "k", none, none⟩, false,
        "Purchase already exists with this idempotency key"⟩, exC6Db) ∧
    crudPurchaseStatusCode ⟨⟨some "e", 2, "k", none, none⟩, false,
      "Purchase already exists with this idempotency key"⟩ = 200 :=
  crud_replay_returns_existing exC6Db "other" "k" 9 ⟨some "e", 2, "k", none, none⟩
    (by decide) (by decide) (by decide) (by decide) (by decide)

/-- **C7 counterexample.** The 400 response produced by the validation
middleware for `quantity = 0` has body `{success:false,
error:'VALIDATION_ERROR', message}` — not the claimed shape `{success:false,
statusCode, message, stack}` — refuting "every HTTP error response body". -/
theorem error_body_shape_cex :
    validatePurchaseBody (JsVal.intVal 0) =
      Except.error (400, RespBody.validationShape false "VALIDATION_ERROR"
        "Quantity must be at least 1") ∧
    hasErrorShape (RespBody.validationShape false "VALIDATION_ERROR"
      "Quantity must be at least 1") = false := by
  decide

/-- **C7 (amended).** Every error response produced by the error-handling
middleware has body shape `{success:false, statusCode, message, stack}`,
and any error not marked operational has its status forced to 500 with the
generic status-text message; but error responses produced directly by the
validation middleware have the different `{success:false, error, message}`
shape. -/
theorem errorHandler_shape (err err' : ApiError) (v : JsVal) (n : Nat) (b : RespBody)
    (hop : err'.isOperational = false)
    (hv : validatePurchaseBody v = Except.error (n, b)) :
    hasErrorShape (errorHandler err).2 = true ∧
    errorHandler err' = (500, RespBody.errorShape false 500 "Internal Server Error"
      err'.stack) ∧
    n = 400 ∧ hasErrorShape b = false := by
  refine ⟨?_, ?_, ?_⟩
  · unfold errorHandler hasErrorShape
    cases herr : err.isOperational <;> rfl
  · unfold errorHandler
    rw [hop]
    rfl
  · cases v with
    | nonInt =>
      simp only [validatePurchaseBody, Except.error.injEq, Prod.mk.injEq] at hv
      obtain ⟨h1, h2⟩ := hv
      subst h1
      subst h2
      exact ⟨rfl, rfl⟩
    | intVal m =>
      simp only [validatePurchaseBody] at hv
      split at hv
      · simp only [Except.error.injEq, Prod.mk.injEq] at hv
        obtain ⟨h1, h2⟩ := hv
        subst h1
        subst h2
        exact ⟨rfl, rfl⟩
      · split at hv
        · simp only [Except.error.injEq, Prod.mk.injEq] at hv
          obtain ⟨h1, h2⟩ := hv
          subst h1
          subst h2
          exact ⟨rfl, rfl⟩
        · exact Except.noConfusion hv

theorem errorHandler_shape_witness :
    hasErrorShape (errorHandler (createApiError 404 "Event not found" true "tr")).2
      = true ∧
    errorHandler (createApiError 503 "boom" false "trace") =
      (500, RespBody.errorShape false 500 "Internal Server Error" "trace") ∧
    (400 : Nat) = 400 ∧
    hasErrorShape (RespBody.validationShape false "VALIDATION_ERROR"
      "Quantity must be an integer") = false :=
  errorHandler_shape (createApiError 404 "Event not found" true "tr")
    (createApiError 503 "boom" false "trace") JsVal.nonInt 400
    (RespBody.validationShape false "VALIDATION_ERROR" "Quantity must be an integer")
    (by decide) (by decide)

set_option maxRecDepth 10000 in
/-- **C8.** The metrics sample window holds at most 1000 samples with the
oldest evicted first on overflow; `getP95Latency` of an empty window is 0;
otherwise it is the element at zero-based index `ceil(n * 0.95) - 1`
(exactly `(19n + 19) / 20 - 1` for the attainable window sizes) of the
ascending sort of the window — which is sorted and a permutation of the
window; and over the samples `[1, 2, ..., 100]` it equals 95. -/
theorem metrics_p95_spec (ts ts' : List Nat) (t t' : Nat)
    (h : ts.length ≤ 1000) (hne : ts ≠ []) (h1000 : ts'.length = 1000) :
    (recordResponseTime ts t).length ≤ 1000 ∧
    recordResponseTime ts' t' = ts'.drop 1 ++ [t'] ∧
    getP95Latency [] = 0 ∧
    getP95Latency ts =
      (ts.insertionSort (· ≤ ·)).getD ((19 * ts.length + 19) / 20 - 1) 0 ∧
    (ts.insertionSort (· ≤ ·)).Sorted (· ≤ ·) ∧
    (ts.insertionSort (· ≤ ·)).Perm ts ∧
    getP95Latency (List.range' 1 100) = 95 := by
  refine ⟨?_, ?_, rfl, ?_, List.sorted_insertionSort _ _, List.perm_insertionSort _ _, ?_⟩
  · unfold recordResponseTime
    dsimp only
    by_cases hlen : (ts ++ [t]).length > 1000
    · rw [if_pos hlen]
      simp only [List.length_drop, List.length_append, List.length_singleton]
      omega
    · rw [if_neg hlen]
      simp only [List.length_append, List.length_singleton] at hlen ⊢
      omega
  · unfold recordResponseTime
    dsimp only
    rw [if_pos (by simp [h1000])]
    rw [List.drop_append_of_le_length (by omega)]
  · unfold getP95Latency
    rw [if_neg (by simpa using hne)]
  · decide

theorem metrics_p95_spec_witness :
    (recordResponseTime [5, 1, 3] 7).length ≤ 1000 ∧
    recordResponseTime (List.replicate 1000 0) 7 =
      (List.replicate 1000 0).drop 1 ++ [7] ∧
    getP95Latency [] = 0 ∧
    getP95Latency [5, 1, 3] =
      ([5, 1, 3].insertionSort (· ≤ ·)).getD ((19 * [5, 1, 3].length + 19) / 20 - 1) 0 ∧
    ([5, 1, 3].insertionSort (· ≤ ·)).Sorted (· ≤ ·) ∧
    ([5, 1, 3].insertionSort (· ≤ ·)).Perm [5, 1, 3] ∧
    getP95Latency (List.range' 1 100) = 95 :=
  metrics_p95_spec [5, 1, 3] (List.replicate 1000 0) 7 7
    (by decide) (by decide) (by rw [List.length_replicate])
/-- **C10.** `getPurchaseStats` sums `quantity` over all purchase rows with
no filter on `wasSuccessful`, while the fast path records rejected attempts
as rows carrying their requested quantity with `wasSuccessful = false`;
hence the reported `totalSeats` (here 8) exceeds the seats actually sold by
successful purchases (here 2). -/
theorem stats_total_seats_overcounts :
    (soldOutPurchaseRow (some "e") 6 "k2").wasSuccessful = some false ∧
    (soldOutPurchaseRow (some "e") 6 "k2").quantity = 6 ∧
    getPurchaseStats exStatsDb = (2, 8) ∧
    successfulSeats exStatsDb = 2 ∧
    (getPurchaseStats exStatsDb).2 > successfulSeats exStatsDb := by
  decide

end TicketSelling
